import Mathlib

/-!
Verification of the webmidi `Input` port (src/Input.js): message routing and
system dispatch, listener registry fan-out across the sixteen MIDI channels,
transport state-change translation, and the close path.

The `Input` class itself is embedded from src/Input.js. Its collaborators
(the `Message` decoder from WebMidi.js, `InputChannel`, `Utilities`,
`Enumerations` and the djipevents `EventEmitter`) are not part of the
repository sources and are modelled from the specification, as marked on
each such definition.
-/

namespace Webmidi

/-- Modelled from the spec: the `Listener` subscription record created by the
external djipevents `EventEmitter` (not under src/). It records the event
name, an identifier standing for the callback function, and the channel whose
registry owns it (`none` when it lives in the port-wide registry). -/
structure Listener where
  event : String
  callback : Nat
  targetChannel : Option Nat
deriving DecidableEq, Repr

/-- Modelled from the spec: the subset of the listener options object that
the claims need; `channels` is the MIDI channel selector of the subscription
API (an array of channel numbers, or absent). -/
structure ListenerOptions where
  channels : Option (List Nat) := none
deriving DecidableEq, Repr

/-- Modelled from the spec: the `Message` value decoded from one raw MIDI
byte frame (class `Message` in WebMidi.js, not under src/). -/
structure Message where
  data : List Nat
deriving DecidableEq, Repr

/-- The status byte of a message is the first byte of its frame. -/
def Message.statusByte (m : Message) : Nat := m.data.headD 0

/-- Modelled from the spec: a status byte of 0xF0 or above classifies the
message as a system message (this includes reserved and undefined status
bytes, which decode to the unknown kind). -/
def Message.isSystemMessage (m : Message) : Bool :=
  decide (0xF0 ≤ m.statusByte)

/-- Modelled from the spec: a status byte in 0x80 to 0xEF classifies the
message as a channel message. -/
def Message.isChannelMessage (m : Message) : Bool :=
  decide (0x80 ≤ m.statusByte) && decide (m.statusByte < 0xF0)

/-- Modelled from the spec: the channel of a channel message is the low
nibble of the status byte plus one; system messages carry channel 0. -/
def Message.channel (m : Message) : Nat :=
  if m.isChannelMessage then m.statusByte % 16 + 1 else 0

/-- Modelled from the spec: the fixed table mapping a system status byte to
its message kind; any status byte outside the table decodes to the unknown
kind, represented as `none`. -/
def systemMessageType : Nat → Option String
  | 0xF0 => some "sysex"
  | 0xF1 => some "timecode"
  | 0xF2 => some "songposition"
  | 0xF3 => some "songselect"
  | 0xF6 => some "tunerequest"
  | 0xF8 => some "clock"
  | 0xFA => some "start"
  | 0xFB => some "continue"
  | 0xFC => some "stop"
  | 0xFE => some "activesensing"
  | 0xFF => some "reset"
  | _ => none

/-- Modelled from the spec: the table mapping the high nibble of a channel
status byte to the channel message kind. -/
def channelMessageType : Nat → Option String
  | 0x8 => some "noteoff"
  | 0x9 => some "noteon"
  | 0xA => some "keyaftertouch"
  | 0xB => some "controlchange"
  | 0xC => some "programchange"
  | 0xD => some "channelaftertouch"
  | 0xE => some "pitchbend"
  | _ => none

/-- Modelled from the spec: the decoded kind of a message; `none` represents
the unknown kind (an unrecognized status byte). Decoding never fails. -/
def Message.type (m : Message) : Option String :=
  if m.isSystemMessage then systemMessageType m.statusByte
  else if m.isChannelMessage then channelMessageType (m.statusByte / 16)
  else none

/-- Modelled from the spec: `InputChannel.EVENTS` (InputChannel.js, not under
src/), the closed table of channel-scoped event names, including the
number-qualified controlchange names. -/
def InputChannel.EVENTS : List String :=
  ["noteoff", "controlchange", "keyaftertouch", "programchange",
   "channelaftertouch", "pitchbend", "noteon",
   "allsoundoff", "resetallcontrollers", "localcontrol", "allnotesoff",
   "omnimode", "monomode",
   "nrpn", "nrpn-dataentrycoarse", "nrpn-dataentryfine",
   "nrpn-databuttonincrement", "nrpn-databuttondecrement",
   "rpn", "rpn-dataentrycoarse", "rpn-dataentryfine",
   "rpn-databuttonincrement", "rpn-databuttondecrement"]
  ++ (List.range 128).map (fun n => "controlchange-" ++ toString n)

/-- Modelled from the spec: `Enumerations.MIDI_CHANNEL_NUMBERS`
(Enumerations.js, not under src/), the sixteen MIDI channel numbers. -/
def Enumerations.MIDI_CHANNEL_NUMBERS : List Nat :=
  [1, 2, 3, 4, 5, 6, 7, 8, 9, 10, 11, 12, 13, 14, 15, 16]

/-- Modelled from the spec: `Utilities.sanitizeChannels` (Utilities.js, not
under src/): every entry of the channel set must be a channel number in 1 to
16, otherwise the call fails with a validation error. -/
def Utilities.sanitizeChannels (channels : List Nat) : Except String (List Nat) :=
  if channels.all (fun c => decide (1 ≤ c) && decide (c ≤ 16)) then Except.ok channels
  else Except.error "Invalid channel number"

/-- Decidable equality for `Except`, used to evaluate the results of the
fallible registry operations on concrete inputs. -/
instance {e a : Type} [DecidableEq e] [DecidableEq a] : DecidableEq (Except e a)
  | Except.ok x, Except.ok y =>
    if h : x = y then isTrue (congrArg Except.ok h)
    else isFalse (fun hc => h (Except.ok.inj hc))
  | Except.ok _, Except.error _ => isFalse (fun hc => Except.noConfusion hc)
  | Except.error _, Except.ok _ => isFalse (fun hc => Except.noConfusion hc)
  | Except.error x, Except.error y =>
    if h : x = y then isTrue (congrArg Except.error h)
    else isFalse (fun hc => h (Except.error.inj hc))

/-- Modelled from the spec: the Web MIDI transport port underlying an Input;
`closeOutcome` is the result the asynchronous transport close() settles
with. -/
structure MIDIInputPort where
  closeOutcome : Except String Unit
deriving DecidableEq, Repr

/-- The state of an `Input` port (src/Input.js): the port-wide listener
registry inherited from EventEmitter, the sixteen channel registries (the
registry of `channels[ch]`, meaningful at ch = 1..16), the attached
forwarders (by identifier, in attachment order), and the transport reference
(`_midiInput`, which becomes `none` once cleared). -/
structure Input where
  listeners : List Listener
  channels : Nat → List Listener
  forwarders : List Nat
  midiInput : Option MIDIInputPort

/-- An `Input` as constructed (src/Input.js constructor): empty registries,
no forwarders, a live transport reference. -/
def emptyInput : Input :=
  { listeners := []
    channels := fun _ => []
    forwarders := []
    midiInput := some { closeOutcome := Except.ok () } }

/-- Return shape of `Input.addListener`: a single Listener for an input-wide
event, the collection of created listeners for a channel-scoped event. -/
inductive AddResult where
  | single (l : Listener)
  | multiple (ls : List Listener)
deriving DecidableEq, Repr

/-- One step of the channel fan-out loop of `Input.addListener`
(src/Input.js lines 488-490): push a fresh listener for channel `ch` into
that channel registry and collect the created handle. -/
def addStep (event : String) (callback : Nat)
    (acc : List Listener × (Nat → List Listener)) (ch : Nat) :
    List Listener × (Nat → List Listener) :=
  (acc.1 ++ [⟨event, callback, some ch⟩],
   fun n => if n = ch then acc.2 n ++ [⟨event, callback, some ch⟩] else acc.2 n)

/-- `Input.addListener` (src/Input.js lines 467-500): a channel-scoped event
name (member of `InputChannel.EVENTS`) defaults its channel set to all
sixteen when `options.channels` is absent, sanitizes it, creates one
listener in each resolved channel registry and returns the collected
handles; any other event name delegates to the port-wide registry (the
EventEmitter superclass) and returns the single created listener. -/
def Input.addListener (inp : Input) (event : String) (callback : Nat)
    (options : ListenerOptions) : Except String (AddResult × Input) :=
  if event ∈ InputChannel.EVENTS then
    match Utilities.sanitizeChannels
        (options.channels.getD Enumerations.MIDI_CHANNEL_NUMBERS) with
    | Except.error e => Except.error e
    | Except.ok chs =>
      Except.ok
        (AddResult.multiple (chs.foldl (addStep event callback) ([], inp.channels)).1,
         { inp with channels := (chs.foldl (addStep event callback) ([], inp.channels)).2 })
  else
    Except.ok
      (AddResult.single ⟨event, callback, none⟩,
       { inp with listeners := inp.listeners ++ [⟨event, callback, none⟩] })

/-- Modelled from the spec: the djipevents hasListener check on one channel
registry; a listener matches when its event name and callback agree. -/
def channelHasListener (inp : Input) (ch : Nat) (event : String)
    (callback : Nat) : Bool :=
  (inp.channels ch).any (fun l => decide (l.event = event) && decide (l.callback = callback))

/-- `Input.hasListener` (src/Input.js lines 646-677): for a channel-scoped
event name the channel set must be supplied (validation, lines 658-663) and
the query is conjunctive over the sanitized set (`every`, line 669); for any
other name the port-wide registry is consulted. -/
def Input.hasListener (inp : Input) (event : String) (callback : Nat)
    (options : ListenerOptions) : Except String Bool :=
  if event ∈ InputChannel.EVENTS then
    match options.channels with
    | none => Except.error "For channel-specific events, options.channels must be defined."
    | some requested =>
      match Utilities.sanitizeChannels requested with
      | Except.error e => Except.error e
      | Except.ok chs =>
        Except.ok (chs.all (fun ch => channelHasListener inp ch event callback))
  else
    Except.ok
      (inp.listeners.any (fun l => decide (l.event = event) && decide (l.callback = callback)))

/-- Modelled from the spec: the djipevents removeListener matching rule; a
listener is removed when the event name matches and, when a callback is
supplied, the callback matches too. -/
def listenerMatches (l : Listener) (event : String) (callback : Option Nat) : Bool :=
  decide (l.event = event) &&
    (match callback with
     | none => true
     | some cb => decide (l.callback = cb))

/-- One step of the clear-everything loop of `Input.removeListener`
(src/Input.js lines 719-721): empty the registry of channel `ch`. -/
def clearStep (f : Nat → List Listener) (ch : Nat) : Nat → List Listener :=
  fun n => if n = ch then [] else f n

/-- One step of the per-event removal loop of `Input.removeListener`
(src/Input.js lines 728-730): drop the matching listeners of channel `ch`. -/
def pruneStep (event : String) (callback : Option Nat)
    (f : Nat → List Listener) (ch : Nat) : Nat → List Listener :=
  fun n =>
    if n = ch then (f n).filter (fun l => !(listenerMatches l event callback)) else f n

/-- `Input.removeListener` (src/Input.js lines 702-738): the channel option
defaults to all sixteen (line 715); with no event name every resolved
channel registry is cleared and then the port-wide registry is cleared
(lines 718-723); with a channel-scoped event name the matching listeners of
every resolved channel are removed; with any other event name the removal
happens in the port-wide registry. -/
def Input.removeListener (inp : Input) (event : Option String)
    (callback : Option Nat) (options : ListenerOptions) : Except String Input :=
  match event with
  | none =>
    match Utilities.sanitizeChannels
        (options.channels.getD Enumerations.MIDI_CHANNEL_NUMBERS) with
    | Except.error e => Except.error e
    | Except.ok chs =>
      Except.ok
        { inp with
          channels := chs.foldl clearStep inp.channels
          listeners := [] }
  | some ev =>
    if ev ∈ InputChannel.EVENTS then
      match Utilities.sanitizeChannels
          (options.channels.getD Enumerations.MIDI_CHANNEL_NUMBERS) with
      | Except.error e => Except.error e
      | Except.ok chs =>
        Except.ok { inp with channels := chs.foldl (pruneStep ev callback) inp.channels }
    else
      Except.ok
        { inp with
          listeners := inp.listeners.filter (fun l => !(listenerMatches l ev callback)) }

/-- One observable action of the message-handling path of src/Input.js: an
emission through the port-wide registry (carrying the derived song number
when the event is songselect), the hand-off of the event to one channel
assembler, or the invocation of one forwarder. -/
inductive Action where
  | emitPort (eventType : String) (song : Option Nat)
  | processChannel (ch : Nat)
  | forward (forwarderId : Nat)
deriving DecidableEq, Repr

/-- Whether an action is a forwarder invocation. -/
def Action.isForward : Action → Bool
  | Action.forward _ => true
  | _ => false

/-- `Input._parseEvent` (src/Input.js lines 249-263): the event type is the
decoded kind of the message, with the unknown kind mapped to
"unknownmidimessage"; a songselect event additionally carries
song = second byte of the frame + 1; exactly one event is emitted through
the port-wide registry. -/
def Input.parseEvent (m : Message) : List Action :=
  [Action.emitPort (m.type.getD "unknownmidimessage")
    (if m.type.getD "unknownmidimessage" = "songselect"
     then some (m.data.getD 1 0 + 1) else none)]

/-- The routing decision taken by `Input._onMidiMessage` (src/Input.js lines
235-239): to the system dispatcher, to one channel assembler, or nowhere. -/
inductive Route where
  | system
  | channel (ch : Nat)
  | noRoute
deriving DecidableEq, Repr

/-- The demultiplexing branch of `Input._onMidiMessage` (src/Input.js lines
235-239): system messages go to the system dispatcher `_parseEvent`, channel
messages to the assembler `channels[message.channel]`. -/
def routeOf (m : Message) : Route :=
  if m.isSystemMessage then Route.system
  else if m.isChannelMessage then Route.channel m.channel
  else Route.noRoute

/-- The actions produced by the demultiplexing branch of
`Input._onMidiMessage` (src/Input.js lines 235-239). -/
def dispatchActions (m : Message) : List Action :=
  if m.isSystemMessage then Input.parseEvent m
  else if m.isChannelMessage then [Action.processChannel m.channel]
  else []

/-- `Input._onMidiMessage` (src/Input.js lines 187-244) as the ordered list
of its observable actions: the catch-all "midimessage" emission first (line
231), then the system/channel dispatch (lines 235-239), and finally one
forward per attached forwarder, in attachment order (line 242). Listener
lookup never gates any of these actions. -/
def Input.onMidiMessage (inp : Input) (data : List Nat) : List Action :=
  Action.emitPort "midimessage" none
    :: (dispatchActions (Message.mk data) ++ inp.forwarders.map Action.forward)

/-- A transport state-change notification: the connection and state strings
of the port plus the identity fields copied by the disconnected snapshot. -/
structure PortStateEvent where
  connection : String
  state : String
  id : String
  manufacturer : String
  name : String
  type : String
deriving DecidableEq, Repr

/-- The `target` payload of a state-change event: the live Input object, or
the identity snapshot built for disconnected events. -/
inductive EventTarget where
  | live
  | snapshot (connection id manufacturer name state type : String)
deriving DecidableEq, Repr

/-- The outcome of `Input._onStateChange` (src/Input.js lines 104-180): one
emitted port-wide event, the intentionally suppressed combination, or the
console diagnostic for an uncaught combination. -/
inductive StateChangeOutcome where
  | emits (eventType : String) (target : EventTarget)
  | suppressed
  | warning
deriving DecidableEq, Repr

/-- `Input._onStateChange` (src/Input.js lines 104-180): connection "open"
emits opened; connection "closed" with state "connected" emits closed;
connection "closed" with state "disconnected" emits disconnected with a
snapshot target copying the six identity fields; connection "pending" with
state "disconnected" is swallowed; anything else is a console warning. -/
def Input.onStateChange (p : PortStateEvent) : StateChangeOutcome :=
  if p.connection = "open" then
    StateChangeOutcome.emits "opened" EventTarget.live
  else if p.connection = "closed" ∧ p.state = "connected" then
    StateChangeOutcome.emits "closed" EventTarget.live
  else if p.connection = "closed" ∧ p.state = "disconnected" then
    StateChangeOutcome.emits "disconnected"
      (EventTarget.snapshot p.connection p.id p.manufacturer p.name p.state p.type)
  else if p.connection = "pending" ∧ p.state = "disconnected" then
    StateChangeOutcome.suppressed
  else
    StateChangeOutcome.warning

/-- What the promise returned by `Input.close` settles with: resolved with
the Input itself, or rejected with the transport error. -/
inductive ClosePromise where
  | resolvedSelf
  | rejected (err : String)
deriving DecidableEq, Repr

/-- `Input.close` (src/Input.js lines 293-307), paired with whether the
transport close() was invoked: a cleared transport reference
short-circuits to a promise resolved with the Input itself (line 297). -/
def Input.close (inp : Input) : ClosePromise × Bool :=
  match inp.midiInput with
  | none => (ClosePromise.resolvedSelf, false)
  | some t =>
    match t.closeOutcome with
    | Except.ok _ => (ClosePromise.resolvedSelf, true)
    | Except.error e => (ClosePromise.rejected e, true)

/-! ## Helper lemmas about the fan-out loops -/

/-- The handles collected by the addListener fan-out loop: one listener per
visited channel, in visiting order. -/
lemma addStep_foldl_fst (event : String) (callback : Nat) (chs : List Nat) :
    ∀ p : List Listener × (Nat → List Listener),
      (chs.foldl (addStep event callback) p).1
        = p.1 ++ chs.map (fun ch => (⟨event, callback, some ch⟩ : Listener)) := by
  induction chs with
  | nil => intro p; simp
  | cons c cs ih =>
    intro p
    rw [List.foldl_cons, ih]
    dsimp only [addStep]
    simp

/-- A channel outside the visited set keeps its registry unchanged by the
addListener fan-out loop. -/
lemma addStep_foldl_snd_not_mem (event : String) (callback : Nat) (chs : List Nat)
    (n : Nat) :
    ∀ p : List Listener × (Nat → List Listener), n ∉ chs →
      (chs.foldl (addStep event callback) p).2 n = p.2 n := by
  induction chs with
  | nil => intro p _; rfl
  | cons c cs ih =>
    intro p hn
    rw [List.foldl_cons, ih _ (fun h => hn (List.mem_cons_of_mem c h))]
    dsimp only [addStep]
    rw [if_neg (fun h => hn (by rw [h]; exact List.mem_cons_self c cs))]

/-- A channel inside the visited set (visited once) gains exactly one
listener from the addListener fan-out loop. -/
lemma addStep_foldl_snd_mem (event : String) (callback : Nat) (chs : List Nat)
    (n : Nat) :
    ∀ p : List Listener × (Nat → List Listener), chs.Nodup → n ∈ chs →
      (chs.foldl (addStep event callback) p).2 n
        = p.2 n ++ [(⟨event, callback, some n⟩ : Listener)] := by
  induction chs with
  | nil => intro p _ h; exact absurd h (List.not_mem_nil n)
  | cons c cs ih =>
    intro p hnd hmem
    rw [List.foldl_cons]
    rcases List.mem_cons.mp hmem with hc | hcs
    · subst hc
      rw [addStep_foldl_snd_not_mem event callback cs n _ (List.nodup_cons.mp hnd).1]
      dsimp only [addStep]
      rw [if_pos rfl]
    · have hnc : n ≠ c := fun h => (List.nodup_cons.mp hnd).1 (by rw [← h]; exact hcs)
      rw [ih _ (List.nodup_cons.mp hnd).2 hcs]
      dsimp only [addStep]
      rw [if_neg hnc]

/-- The clear-everything loop of removeListener empties exactly the visited
channel registries. -/
lemma clearStep_foldl (chs : List Nat) (n : Nat) :
    ∀ f : Nat → List Listener,
      (chs.foldl clearStep f) n = if n ∈ chs then [] else f n := by
  induction chs with
  | nil => intro f; simp
  | cons c cs ih =>
    intro f
    rw [List.foldl_cons, ih]
    by_cases hnc : n = c
    · subst hnc
      by_cases hncs : n ∈ cs <;> simp [clearStep, hncs]
    · by_cases hncs : n ∈ cs <;> simp [clearStep, hnc, hncs]

/-! ## Claim theorems -/

/-- Claim C1: every decoded message with a valid status byte (0x80 to 0xFF)
is routed by the demultiplexer to exactly one of the system dispatcher and a
single channel assembler - the system dispatcher exactly when the decoder
classifies it as a system message, the assembler of its channel exactly when
it is a channel message, never both and never neither - and a message whose
status byte decodes to the unknown kind is always routed to the system
dispatcher. -/
theorem routing_exactly_one (data : List Nat)
    (h1 : 0x80 ≤ (Message.mk data).statusByte)
    (h2 : (Message.mk data).statusByte ≤ 0xFF) :
    (((Message.mk data).isSystemMessage = true
        ∧ (Message.mk data).isChannelMessage = false
        ∧ routeOf (Message.mk data) = Route.system
        ∧ dispatchActions (Message.mk data) = Input.parseEvent (Message.mk data))
      ∨ ((Message.mk data).isSystemMessage = false
        ∧ (Message.mk data).isChannelMessage = true
        ∧ routeOf (Message.mk data) = Route.channel ((Message.mk data).channel)
        ∧ dispatchActions (Message.mk data)
            = [Action.processChannel ((Message.mk data).channel)]))
    ∧ ((Message.mk data).type = none → routeOf (Message.mk data) = Route.system) := by
  by_cases hs : 0xF0 ≤ (Message.mk data).statusByte
  · have hsys : (Message.mk data).isSystemMessage = true := by
      simp only [Message.isSystemMessage, decide_eq_true_eq]
      omega
    have hch : (Message.mk data).isChannelMessage = false := by
      simp only [Message.isChannelMessage, Bool.and_eq_false_iff, decide_eq_false_iff_not]
      omega
    refine ⟨Or.inl ⟨hsys, hch, ?_, ?_⟩, fun _ => ?_⟩ <;>
      simp [routeOf, dispatchActions, hsys]
  · push_neg at hs
    have hch : (Message.mk data).isChannelMessage = true := by
      simp only [Message.isChannelMessage, Bool.and_eq_true, decide_eq_true_eq]
      omega
    have hsys : (Message.mk data).isSystemMessage = false := by
      simp only [Message.isSystemMessage, decide_eq_false_iff_not]
      omega
    have htype : (Message.mk data).type ≠ none := by
      unfold Message.type
      rw [hsys, hch]
      simp only [Bool.false_eq_true, if_false, if_pos]
      have hq1 : 8 ≤ (Message.mk data).statusByte / 16 := by omega
      have hq2 : (Message.mk data).statusByte / 16 ≤ 14 := by omega
      set q := (Message.mk data).statusByte / 16 with hq
      interval_cases q <;> simp [channelMessageType]
    refine ⟨Or.inr ⟨hsys, hch, ?_, ?_⟩, fun hn => absurd hn htype⟩ <;>
      simp [routeOf, dispatchActions, hsys, hch]

/-- Witness for C1: the noteon frame 0x90 0x40 0x7F routes to the assembler
of channel 1, and the unrecognized status byte 0xF4 still routes to the
system dispatcher. -/
theorem routing_exactly_one_witness :
    routeOf (Message.mk [0x90, 0x40, 0x7F]) = Route.channel 1
    ∧ routeOf (Message.mk [0xF4]) = Route.system := by
  constructor
  · have h := (routing_exactly_one [0x90, 0x40, 0x7F] (by decide) (by decide)).1
    rcases h with ⟨hsys, _⟩ | ⟨_, _, hr, _⟩
    · exact absurd hsys (by decide)
    · rw [show (Message.mk [0x90, 0x40, 0x7F]).channel = 1 from by decide] at hr
      exact hr
  · exact (routing_exactly_one [0xF4] (by decide) (by decide)).2 (by decide)

/-- Claim C4: addListener for a channel-scoped event name whose channel
option contains an entry outside 1 to 16 fails synchronously with a
validation error. -/
theorem addListener_invalid_channel (inp : Input) (event : String) (callback : Nat)
    (chs : List Nat) (c : Nat)
    (h1 : event ∈ InputChannel.EVENTS)
    (hc : c ∈ chs) (hout : c < 1 ∨ 16 < c) :
    inp.addListener event callback ⟨some chs⟩ = Except.error "Invalid channel number" := by
  have hsan : Utilities.sanitizeChannels chs = Except.error "Invalid channel number" := by
    rw [Utilities.sanitizeChannels, if_neg]
    intro hall
    have h := List.all_eq_true.mp hall c hc
    simp only [Bool.and_eq_true, decide_eq_true_eq] at h
    omega
  simp only [Input.addListener, if_pos h1, Option.getD_some, hsan]

/-- Witness for C4: adding a noteon listener on channels 1 and 17 fails. -/
theorem addListener_invalid_channel_witness :
    emptyInput.addListener "noteon" 0 ⟨some [1, 17]⟩
      = Except.error "Invalid channel number" :=
  addListener_invalid_channel emptyInput "noteon" 0 [1, 17] 17 (by decide) (by decide)
    (by decide)

/-- Claim C2: for a channel-scoped event name, addListener resolves the
channel set from the options (defaulting to all sixteen channels when the
option is absent), creates one independent listener in the registry of each
resolved channel, leaves every other channel registry and the port-wide
registry untouched, and returns the collection of created handles, one per
resolved channel; for an input-wide event name it creates exactly one
listener in the port-wide registry and returns it directly, not wrapped in a
collection. -/
theorem addListener_shapes (inp : Input) (event : String) (callback : Nat)
    (options : ListenerOptions) :
    (∀ resolved, event ∈ InputChannel.EVENTS →
      resolved = options.channels.getD Enumerations.MIDI_CHANNEL_NUMBERS →
      (∀ c ∈ resolved, 1 ≤ c ∧ c ≤ 16) → resolved.Nodup →
      ∃ inp2,
        inp.addListener event callback options
          = Except.ok (AddResult.multiple
              (resolved.map (fun ch => (⟨event, callback, some ch⟩ : Listener))), inp2)
        ∧ (∀ ch ∈ resolved,
            inp2.channels ch = inp.channels ch ++ [(⟨event, callback, some ch⟩ : Listener)])
        ∧ (∀ ch, ch ∉ resolved → inp2.channels ch = inp.channels ch)
        ∧ inp2.listeners = inp.listeners)
    ∧ (event ∉ InputChannel.EVENTS →
        inp.addListener event callback options
          = Except.ok (AddResult.single ⟨event, callback, none⟩,
              { inp with listeners := inp.listeners ++ [⟨event, callback, none⟩] })) := by
  constructor
  · intro resolved hev hres hvalid hnodup
    have hall : (resolved.all fun c => decide (1 ≤ c) && decide (c ≤ 16)) = true := by
      rw [List.all_eq_true]
      intro c hc
      have h := hvalid c hc
      simp [h.1, h.2]
    have hsan : Utilities.sanitizeChannels resolved = Except.ok resolved := by
      rw [Utilities.sanitizeChannels, if_pos hall]
    refine ⟨{ inp with
        channels := (resolved.foldl (addStep event callback) ([], inp.channels)).2 }, ?_, ?_, ?_, rfl⟩
    · simp only [Input.addListener, if_pos hev, ← hres, hsan]
      rw [addStep_foldl_fst]
      simp
    · intro ch hch
      exact addStep_foldl_snd_mem event callback resolved ch _ hnodup hch
    · intro ch hch
      exact addStep_foldl_snd_not_mem event callback resolved ch _ hch
  · intro hev
    simp only [Input.addListener, if_neg hev]

/-- Projection of the value returned by addListener, used to evaluate the
return shape on concrete inputs. -/
def addResultOf (r : Except String (AddResult × Input)) : Option AddResult :=
  match r with
  | Except.ok p => some p.1
  | Except.error _ => none

/-- Projection of the updated Input state produced by addListener. -/
def addStateOf (r : Except String (AddResult × Input)) : Input :=
  match r with
  | Except.ok p => p.2
  | Except.error _ => emptyInput

/-- The Input obtained by subscribing callback 0 to noteon on channels 1 and
3 of a fresh Input. -/
def inputAfterNoteon13 : Input :=
  addStateOf (emptyInput.addListener "noteon" 0 ⟨some [1, 3]⟩)

/-- Witness for C2: subscribing to noteon on channels 1 and 3 returns
exactly the two created handles and populates exactly those two channel
registries, while subscribing to the input-wide midimessage event returns a
single unwrapped listener. -/
theorem addListener_shapes_witness :
    addResultOf (emptyInput.addListener "noteon" 0 ⟨some [1, 3]⟩)
      = some (AddResult.multiple [⟨"noteon", 0, some 1⟩, ⟨"noteon", 0, some 3⟩])
    ∧ inputAfterNoteon13.channels 1 = [⟨"noteon", 0, some 1⟩]
    ∧ inputAfterNoteon13.channels 2 = []
    ∧ inputAfterNoteon13.channels 3 = [⟨"noteon", 0, some 3⟩]
    ∧ inputAfterNoteon13.listeners = []
    ∧ addResultOf (emptyInput.addListener "midimessage" 0 ⟨none⟩)
      = some (AddResult.single ⟨"midimessage", 0, none⟩) := by
  obtain ⟨inp2, heq, hmem, hnot, hport⟩ :=
    (addListener_shapes emptyInput "noteon" 0 ⟨some [1, 3]⟩).1 [1, 3] (by decide) rfl
      (by decide) (by decide)
  have hsingle :=
    (addListener_shapes emptyInput "midimessage" 0 ⟨none⟩).2 (by decide)
  refine ⟨?_, ?_, ?_, ?_, ?_, ?_⟩
  · rw [heq]
    rfl
  · show (addStateOf (emptyInput.addListener "noteon" 0 ⟨some [1, 3]⟩)).channels 1 = _
    rw [heq]
    simpa [emptyInput] using hmem 1 (by decide)
  · show (addStateOf (emptyInput.addListener "noteon" 0 ⟨some [1, 3]⟩)).channels 2 = _
    rw [heq]
    simpa [emptyInput] using hnot 2 (by decide)
  · show (addStateOf (emptyInput.addListener "noteon" 0 ⟨some [1, 3]⟩)).channels 3 = _
    rw [heq]
    simpa [emptyInput] using hmem 3 (by decide)
  · show (addStateOf (emptyInput.addListener "noteon" 0 ⟨some [1, 3]⟩)).listeners = _
    rw [heq]
    simpa [emptyInput] using hport
  · rw [hsingle]
    rfl

/-- Claim C3: hasListener for a channel-scoped event name is conjunctive
over the supplied channel set - it answers true exactly when every channel
of the set has a matching listener, so a single channel without one makes
the whole query false. -/
theorem hasListener_conjunctive (inp : Input) (event : String) (callback : Nat)
    (chs : List Nat)
    (h1 : event ∈ InputChannel.EVENTS)
    (h2 : ∀ c ∈ chs, 1 ≤ c ∧ c ≤ 16) :
    inp.hasListener event callback ⟨some chs⟩
      = Except.ok (chs.all fun ch => channelHasListener inp ch event callback)
    ∧ (inp.hasListener event callback ⟨some chs⟩ = Except.ok true
        ↔ ∀ ch ∈ chs, channelHasListener inp ch event callback = true) := by
  have hall : (chs.all fun c => decide (1 ≤ c) && decide (c ≤ 16)) = true := by
    rw [List.all_eq_true]
    intro c hc
    have h := h2 c hc
    simp [h.1, h.2]
  have hsan : Utilities.sanitizeChannels chs = Except.ok chs := by
    rw [Utilities.sanitizeChannels, if_pos hall]
  have hmain : inp.hasListener event callback ⟨some chs⟩
      = Except.ok (chs.all fun ch => channelHasListener inp ch event callback) := by
    simp only [Input.hasListener, if_pos h1, hsan]
  refine ⟨hmain, ?_⟩
  rw [hmain]
  constructor
  · intro h
    exact List.all_eq_true.mp (Except.ok.inj h)
  · intro h
    rw [List.all_eq_true.mpr h]

/-- Witness for C3: after subscribing to noteon on channels 1 and 3 only,
the query over channels 1, 2 and 3 answers false (channel 2 is missing) and
the query over channels 1 and 3 answers true. -/
theorem hasListener_conjunctive_witness :
    inputAfterNoteon13.hasListener "noteon" 0 ⟨some [1, 2, 3]⟩ = Except.ok false
    ∧ inputAfterNoteon13.hasListener "noteon" 0 ⟨some [1, 3]⟩ = Except.ok true := by
  have ha := (hasListener_conjunctive inputAfterNoteon13 "noteon" 0 [1, 2, 3]
    (by decide) (by decide)).1
  have hb := (hasListener_conjunctive inputAfterNoteon13 "noteon" 0 [1, 3]
    (by decide) (by decide)).1
  constructor
  · rw [ha]
    exact congrArg Except.ok (by decide)
  · rw [hb]
    exact congrArg Except.ok (by decide)

/-- Claim C5: for every received message the handler acts in a fixed order -
the input-wide catch-all "midimessage" emission is the very first action,
the system/channel dispatch comes next and contains no forwarder invocation,
and the forwarder invocations come last, exactly one per attached forwarder
in attachment order, independent of any listener matching. -/
theorem onMidiMessage_order (inp : Input) (data : List Nat) :
    inp.onMidiMessage data
      = Action.emitPort "midimessage" none
          :: (dispatchActions (Message.mk data) ++ inp.forwarders.map Action.forward)
    ∧ (∀ a ∈ dispatchActions (Message.mk data), a.isForward = false)
    ∧ (inp.onMidiMessage data).filter Action.isForward
        = inp.forwarders.map Action.forward := by
  have hdisp : ∀ a ∈ dispatchActions (Message.mk data), a.isForward = false := by
    intro a ha
    unfold dispatchActions at ha
    split_ifs at ha
    · simp only [Input.parseEvent, List.mem_singleton] at ha
      subst ha
      rfl
    · simp only [List.mem_singleton] at ha
      subst ha
      rfl
    · exact absurd ha (List.not_mem_nil a)
  refine ⟨rfl, hdisp, ?_⟩
  show (Action.emitPort "midimessage" none
      :: (dispatchActions (Message.mk data) ++ inp.forwarders.map Action.forward)).filter
        Action.isForward = inp.forwarders.map Action.forward
  rw [List.filter_cons, List.filter_append]
  have h1 : Action.isForward (Action.emitPort "midimessage" none) = false := rfl
  rw [h1]
  have h2 : (dispatchActions (Message.mk data)).filter Action.isForward = [] := by
    rw [List.filter_eq_nil_iff]
    intro a ha
    simp [hdisp a ha]
  have h3 : (inp.forwarders.map Action.forward).filter Action.isForward
      = inp.forwarders.map Action.forward := by
    rw [List.filter_eq_self]
    intro a ha
    obtain ⟨x, _, rfl⟩ := List.mem_map.mp ha
    rfl
  rw [h2, h3]
  simp

/-- An Input with two attached forwarders (identifiers 7 then 8, in
attachment order). -/
def inputWithForwarders : Input :=
  { emptyInput with forwarders := [7, 8] }

/-- Witness for C5: on a noteon frame, the first action is the catch-all
"midimessage" emission and the forward actions are exactly the two attached
forwarders in attachment order. -/
theorem onMidiMessage_order_witness :
    (inputWithForwarders.onMidiMessage [0x90, 0x40, 0x7F]).head?
      = some (Action.emitPort "midimessage" none)
    ∧ (inputWithForwarders.onMidiMessage [0x90, 0x40, 0x7F]).filter Action.isForward
      = [Action.forward 7, Action.forward 8] := by
  have h := onMidiMessage_order inputWithForwarders [0x90, 0x40, 0x7F]
  constructor
  · rw [h.1]
    rfl
  · rw [h.2.2]
    rfl

/-- Claim C6: a transport state-change notification is translated to exactly
one of the three events opened (connection open), closed (connection closed
with state connected) and disconnected (connection closed with state
disconnected, whose target is a snapshot of the six identity fields rather
than the live Input); the pending/disconnected combination emits nothing at
all; any other combination yields only a diagnostic, without failing and
without emitting an event. -/
theorem onStateChange_cases (p : PortStateEvent) :
    (p.connection = "open" →
        Input.onStateChange p = StateChangeOutcome.emits "opened" EventTarget.live)
    ∧ (p.connection = "closed" → p.state = "connected" →
        Input.onStateChange p = StateChangeOutcome.emits "closed" EventTarget.live)
    ∧ (p.connection = "closed" → p.state = "disconnected" →
        Input.onStateChange p
          = StateChangeOutcome.emits "disconnected"
              (EventTarget.snapshot p.connection p.id p.manufacturer p.name p.state p.type))
    ∧ (p.connection = "pending" → p.state = "disconnected" →
        Input.onStateChange p = StateChangeOutcome.suppressed)
    ∧ (p.connection ≠ "open" →
        ¬(p.connection = "closed" ∧ p.state = "connected") →
        ¬(p.connection = "closed" ∧ p.state = "disconnected") →
        ¬(p.connection = "pending" ∧ p.state = "disconnected") →
        Input.onStateChange p = StateChangeOutcome.warning)
    ∧ (∀ t tgt, Input.onStateChange p = StateChangeOutcome.emits t tgt →
        t = "opened" ∨ t = "closed" ∨ t = "disconnected") := by
  refine ⟨?_, ?_, ?_, ?_, ?_, ?_⟩
  · intro h
    simp [Input.onStateChange, h]
  · intro h1 h2
    simp [Input.onStateChange, h1, h2]
  · intro h1 h2
    simp [Input.onStateChange, h1, h2]
  · intro h1 h2
    simp [Input.onStateChange, h1, h2]
  · intro h1 h2 h3 h4
    unfold Input.onStateChange
    rw [if_neg h1, if_neg h2, if_neg h3, if_neg h4]
  · intro t tgt h
    unfold Input.onStateChange at h
    split_ifs at h
    · exact Or.inl (StateChangeOutcome.emits.inj h).1.symm
    · exact Or.inr (Or.inl (StateChangeOutcome.emits.inj h).1.symm)
    · exact Or.inr (Or.inr (StateChangeOutcome.emits.inj h).1.symm)

/-- Witness for C6: the four combinations open/connected, closed/connected,
closed/disconnected and pending/disconnected map to opened, closed,
disconnected-with-snapshot and no event, and the uncaught pending/connected
combination maps to the diagnostic. -/
theorem onStateChange_cases_witness :
    Input.onStateChange ⟨"open", "connected", "i", "m", "n", "input"⟩
      = StateChangeOutcome.emits "opened" EventTarget.live
    ∧ Input.onStateChange ⟨"closed", "connected", "i", "m", "n", "input"⟩
      = StateChangeOutcome.emits "closed" EventTarget.live
    ∧ Input.onStateChange ⟨"closed", "disconnected", "i", "m", "n", "input"⟩
      = StateChangeOutcome.emits "disconnected"
          (EventTarget.snapshot "closed" "i" "m" "n" "disconnected" "input")
    ∧ Input.onStateChange ⟨"pending", "disconnected", "i", "m", "n", "input"⟩
      = StateChangeOutcome.suppressed
    ∧ Input.onStateChange ⟨"pending", "connected", "i", "m", "n", "input"⟩
      = StateChangeOutcome.warning := by
  refine ⟨?_, ?_, ?_, ?_, ?_⟩
  · exact (onStateChange_cases ⟨"open", "connected", "i", "m", "n", "input"⟩).1 rfl
  · exact (onStateChange_cases ⟨"closed", "connected", "i", "m", "n", "input"⟩).2.1 rfl rfl
  · exact (onStateChange_cases ⟨"closed", "disconnected", "i", "m", "n", "input"⟩).2.2.1 rfl rfl
  · exact (onStateChange_cases ⟨"pending", "disconnected", "i", "m", "n", "input"⟩).2.2.2.1 rfl rfl
  · exact (onStateChange_cases ⟨"pending", "connected", "i", "m", "n", "input"⟩).2.2.2.2.1
      (by decide) (by decide) (by decide) (by decide)

/-- Claim C7: removeListener called with no event name (and no other
argument) removes every listener - the port-wide registry and all sixteen
channel registries end up empty - while the attached forwarders are kept. -/
theorem removeListener_all (inp : Input) :
    ∃ inp2, inp.removeListener none none ⟨none⟩ = Except.ok inp2
      ∧ inp2.listeners = []
      ∧ (∀ ch, 1 ≤ ch → ch ≤ 16 → inp2.channels ch = [])
      ∧ inp2.forwarders = inp.forwarders := by
  refine ⟨{ inp with
      channels := Enumerations.MIDI_CHANNEL_NUMBERS.foldl clearStep inp.channels
      listeners := [] }, rfl, rfl, ?_, rfl⟩
  intro ch hch1 hch2
  show (Enumerations.MIDI_CHANNEL_NUMBERS.foldl clearStep inp.channels) ch = []
  rw [clearStep_foldl]
  have hmem : ch ∈ Enumerations.MIDI_CHANNEL_NUMBERS := by
    simp only [Enumerations.MIDI_CHANNEL_NUMBERS, List.mem_cons, List.not_mem_nil, or_false]
    omega
  rw [if_pos hmem]

/-- An Input with one port-wide listener, one listener on channel 3 and one
forwarder, used to exercise the clear-everything path. -/
def populatedInput : Input :=
  { listeners := [⟨"midimessage", 5, none⟩]
    channels := fun n => if n = 3 then [⟨"noteon", 5, some 3⟩] else []
    forwarders := [2]
    midiInput := none }

/-- Projection of the Input produced by removeListener. -/
def removedStateOf (r : Except String Input) : Input :=
  match r with
  | Except.ok i => i
  | Except.error _ => emptyInput

/-- Witness for C7: clearing the populated Input empties its port-wide
registry and the registry of channel 3. -/
theorem removeListener_all_witness :
    (removedStateOf (populatedInput.removeListener none none ⟨none⟩)).listeners = []
    ∧ (removedStateOf (populatedInput.removeListener none none ⟨none⟩)).channels 3 = [] := by
  obtain ⟨inp2, heq, hport, hch, _⟩ := removeListener_all populatedInput
  rw [heq]
  exact ⟨hport, hch 3 (by omega) (by omega)⟩

/-- Whether an action is an emission of the unknownmidimessage event through
the port-wide registry. -/
def isUnknownEmission : Action → Bool
  | Action.emitPort t _ => decide (t = "unknownmidimessage")
  | _ => false

/-- Claim C8: a message whose status byte is classified as a system message
but decodes to the unknown kind produces exactly one emission of the
"unknownmidimessage" event through the port-wide registry; the handler is a
total function, so no exception is raised. -/
theorem unknown_status_event (inp : Input) (data : List Nat)
    (hsys : (Message.mk data).isSystemMessage = true)
    (hunk : (Message.mk data).type = none) :
    (inp.onMidiMessage data).filter isUnknownEmission
      = [Action.emitPort "unknownmidimessage" none] := by
  have hd : dispatchActions (Message.mk data)
      = [Action.emitPort "unknownmidimessage" none] := by
    unfold dispatchActions Input.parseEvent
    rw [hsys, hunk]
    simp
  show (Action.emitPort "midimessage" none
      :: (dispatchActions (Message.mk data) ++ inp.forwarders.map Action.forward)).filter
        isUnknownEmission = _
  rw [hd, List.filter_cons, List.filter_append]
  have h1 : isUnknownEmission (Action.emitPort "midimessage" none) = false := by decide
  have h2 : ([Action.emitPort "unknownmidimessage" none].filter isUnknownEmission)
      = [Action.emitPort "unknownmidimessage" none] := by decide
  have h3 : (inp.forwarders.map Action.forward).filter isUnknownEmission = [] := by
    rw [List.filter_eq_nil_iff]
    intro a ha
    obtain ⟨x, _, rfl⟩ := List.mem_map.mp ha
    simp [isUnknownEmission]
  rw [h1, h2, h3]
  simp

/-- Witness for C8: the unrecognized status byte 0xF4 produces exactly one
unknownmidimessage emission, even with forwarders attached. -/
theorem unknown_status_event_witness :
    (inputWithForwarders.onMidiMessage [0xF4]).filter isUnknownEmission
      = [Action.emitPort "unknownmidimessage" none] :=
  unknown_status_event inputWithForwarders [0xF4] (by decide) (by decide)

/-- Whether an action is an emission of the songselect event through the
port-wide registry. -/
def isSongselectEmission : Action → Bool
  | Action.emitPort t _ => decide (t = "songselect")
  | _ => false

/-- Claim C9: a frame whose status byte is 0xF3 produces exactly one
songselect emission, and its derived song field is the data byte of the
frame plus one. -/
theorem songselect_song (inp : Input) (data : List Nat)
    (h : data.headD 0 = 0xF3) :
    (inp.onMidiMessage data).filter isSongselectEmission
      = [Action.emitPort "songselect" (some (data.getD 1 0 + 1))] := by
  have hs : (Message.mk data).statusByte = 0xF3 := h
  have hsys : (Message.mk data).isSystemMessage = true := by
    simp only [Message.isSystemMessage, decide_eq_true_eq]
    omega
  have htype : (Message.mk data).type = some "songselect" := by
    unfold Message.type
    rw [hsys, hs]
    simp [systemMessageType]
  have hd : dispatchActions (Message.mk data)
      = [Action.emitPort "songselect" (some (data.getD 1 0 + 1))] := by
    unfold dispatchActions Input.parseEvent
    rw [hsys, htype]
    simp
  show (Action.emitPort "midimessage" none
      :: (dispatchActions (Message.mk data) ++ inp.forwarders.map Action.forward)).filter
        isSongselectEmission = _
  rw [hd, List.filter_cons, List.filter_append]
  have h1 : isSongselectEmission (Action.emitPort "midimessage" none) = false := by decide
  have h2 : ([Action.emitPort "songselect" (some (data.getD 1 0 + 1))].filter
      isSongselectEmission) = [Action.emitPort "songselect" (some (data.getD 1 0 + 1))] := by
    simp [isSongselectEmission]
  have h3 : (inp.forwarders.map Action.forward).filter isSongselectEmission = [] := by
    rw [List.filter_eq_nil_iff]
    intro a ha
    obtain ⟨x, _, rfl⟩ := List.mem_map.mp ha
    simp [isSongselectEmission]
  rw [h1, h2, h3]
  simp

/-- Witness for C9: the byte sequence 0xF3 0x04 yields exactly one
songselect emission with song = 5. -/
theorem songselect_song_witness :
    (emptyInput.onMidiMessage [0xF3, 0x04]).filter isSongselectEmission
      = [Action.emitPort "songselect" (some 5)] := by
  have h := songselect_song emptyInput [0xF3, 0x04] rfl
  simpa using h

/-- Claim C10: close() on an Input whose transport reference has been
cleared settles as a promise resolved with the Input itself, without
invoking any transport operation and without failing. -/
theorem close_without_transport (inp : Input) (h : inp.midiInput = none) :
    inp.close = (ClosePromise.resolvedSelf, false) := by
  unfold Input.close
  rw [h]

/-- A destroyed Input: registries present but the transport reference is
cleared. -/
def detachedInput : Input :=
  { emptyInput with midiInput := none }

/-- Witness for C10: close() on the detached Input resolves without a
transport call. -/
theorem close_without_transport_witness :
    detachedInput.close = (ClosePromise.resolvedSelf, false) :=
  close_without_transport detachedInput rfl

end Webmidi
